import Mathlib

/-!
# Verification of the VISCA-over-TCP camera client

Shallow embedding of `visca_over_ip/tcp_camera.py` and
`visca_over_ip/exceptions.py`.

Conventions of the embedding:
* A Python `bytes` value is a `List Nat` (each element a byte value).
* A value returned by `socket.recv` is an `Option (List Nat)`:
  `none` models a receive timeout (`_send_command` returns `None` there).
* A raised `ViscaException` is modelled as `Except.error body` where
  `body` is the `response_body` passed to the exception constructor;
  `visca_status_code` / `visca_description` reproduce the fields the
  constructor computes from that body.
* A raised `ValueError` (parameter validation) is `Except.error msg`
  in the command-building functions, produced before any frame bytes
  are assembled, mirroring that the Python checks run before
  `_send_command` is called.
-/

namespace ViscaTcp

set_option maxRecDepth 10000

/-- ASCII bytes of a Python byte-string literal such as
`b"Invalid zoom response"`. -/
def asciiBytes (s : String) : List Nat := s.toList.map Char.toNat

/-! ## exceptions.py : ViscaException -/

/-- `ViscaException.__init__`: `status_code = response_body[2]` when the body
is a byte string of length ≥ 3, otherwise `-1`. -/
def visca_status_code (response_body : List Nat) : Int :=
  if 3 ≤ response_body.length then (response_body.getD 2 0 : Int) else -1

/-- `ViscaException.__init__`: the fixed status-code → description table,
with a fallback for unknown codes. -/
def visca_description (code : Int) : String :=
  if code = 1 then "Message length error"
  else if code = 2 then "Syntax error"
  else if code = 3 then "Command buffer full"
  else if code = 4 then "Command cancelled"
  else if code = 5 then "No socket"
  else if code = 0x41 then "Command not executable"
  else if code = 0x76 then "Position limit exceeded or command blocked"
  else "Unknown error code"

/-! ## Numeric codec (nibble packing) -/

/-- `encode_position` (tcp_camera.py, inside `pantilt`): Python
`pos.to_bytes(2, 'big', signed=True)` raises `OverflowError` outside the
signed 16-bit range (modelled by `none`); in range it yields the two
big-endian bytes of the two's-complement representative, and each byte is
split into its high and low nibble, each emitted as its own wire byte. -/
def encode_position (pos : Int) : Option (List Nat) :=
  if pos < -32768 ∨ 32767 < pos then none
  else
    let u : Nat := (pos % 65536).toNat
    let b1 : Nat := u / 256
    let b0 : Nat := u % 256
    some [b1 >>> 4, b1 &&& 0xF, b0 >>> 4, b0 &&& 0xF]

/-- `decode_position` (tcp_camera.py, inside `get_pantilt_position`):
reassemble a signed 16-bit value from the low nibbles of 4 bytes,
subtracting `0x10000` when the unsigned reassembly is ≥ `0x8000`. -/
def decode_position (data : List Nat) : Int :=
  let value : Nat :=
    (data.getD 0 0 &&& 0x0F) <<< 12 ||| (data.getD 1 0 &&& 0x0F) <<< 8 |||
    (data.getD 2 0 &&& 0x0F) <<< 4 ||| (data.getD 3 0 &&& 0x0F)
  if 0x8000 ≤ value then (value : Int) - 0x10000 else (value : Int)

/-- The unsigned nibble reassembly in `get_zoom_position`. -/
def decode_zoom (data : List Nat) : Nat :=
  (data.getD 0 0 &&& 0x0F) <<< 12 ||| (data.getD 1 0 &&& 0x0F) <<< 8 |||
  (data.getD 2 0 &&& 0x0F) <<< 4 ||| (data.getD 3 0 &&& 0x0F)

/-- Nibble-disjoint bitwise-or coincides with positional arithmetic. -/
theorem nibble_lor_arith :
    ∀ a < 16, ∀ b < 16, ∀ c < 16, ∀ d < 16,
      a <<< 12 ||| b <<< 8 ||| c <<< 4 ||| d =
        a * 4096 + b * 256 + c * 16 + d := by
  decide

/-- On byte values, the shift and mask used by the codec are division and
remainder by 16. -/
theorem nibble_split : ∀ b < 256, b >>> 4 = b / 16 ∧ b &&& 0xF = b % 16 := by
  decide

/-- `decode_position` is the signed adjustment of the unsigned reassembly. -/
theorem decode_position_eq (data : List Nat) :
    decode_position data =
      if 0x8000 ≤ decode_zoom data then (decode_zoom data : Int) - 0x10000
      else (decode_zoom data : Int) := rfl

/-- Unsigned reassembly inverts the nibble split of a 16-bit value. -/
theorem reassemble (u : Nat) (hu : u < 65536) :
    decode_zoom
      [(u / 256) >>> 4, u / 256 &&& 0xF, (u % 256) >>> 4, u % 256 &&& 0xF]
      = u := by
  have h1 := nibble_split (u / 256) (by omega)
  have h2 := nibble_split (u % 256) (by omega)
  simp only [decode_zoom, List.getD_cons_zero, List.getD_cons_succ]
  rw [h1.1, h1.2, h2.1, h2.2]
  rw [(nibble_split (u / 256 / 16) (by omega)).2,
      (nibble_split (u / 256 % 16) (by omega)).2,
      (nibble_split (u % 256 / 16) (by omega)).2,
      (nibble_split (u % 256 % 16) (by omega)).2]
  rw [nibble_lor_arith (u / 256 / 16 % 16) (by omega) (u / 256 % 16 % 16)
      (by omega) (u % 256 / 16 % 16) (by omega) (u % 256 % 16 % 16) (by omega)]
  omega

/-! ## _send_command : reply handling

`_send_command` flushes stale input, frames the payload as
`81 (01|09) <payload> FF`, sends it, sleeps 100 ms and performs one
receive.  The functions below model the two halves that the claims are
about: the outbound framing, and the classification of the received
bytes. -/

/-- The outbound frame built by `_send_command`:
`81 09 <payload> FF` for inquiries, `81 01 <payload> FF` for actions. -/
def build_frame (query : Bool) (payload : List Nat) : List Nat :=
  [0x81, if query then 0x09 else 0x01] ++ payload ++ [0xFF]

/-- Reply handling of `_send_command` (tcp_camera.py lines 117-134).
`response = none` models a receive timeout (the Python returns `None`);
an empty byte string also yields `None`.  A reply of length ≥ 3 whose
second byte has high nibble `0x6` raises `ViscaException(response)`,
modelled as `.error response`.  For inquiries with reply length > 3 the
2-byte header and 1-byte terminator are stripped; otherwise the raw
reply is returned. -/
def send_command_result : Bool → Option (List Nat) →
    Except (List Nat) (Option (List Nat))
  | _, none => .ok none
  | query, some r =>
    if r = [] then .ok none
    else if 3 ≤ r.length ∧ r.getD 1 0 &&& 0xF0 = 0x60 then .error r
    else if query ∧ 3 < r.length then .ok (some ((r.drop 2).dropLast))
    else .ok (some r)

/-! ## Transport session state -/

/-- The state of a `TcpCamera` object: constructor arguments plus the
socket handle (`_sock`), which is `none` when unconnected.  Handles are
abstracted to natural numbers. -/
structure TcpCameraState where
  ip : String
  port : Nat
  timeout : ℚ
  sock : Option Nat
deriving DecidableEq, Repr

/-- `TcpCamera.__init__`: starts with `_sock = None`. -/
def tcpCamera_init (ip : String) (port : Nat) (timeout : ℚ) :
    TcpCameraState :=
  { ip := ip, port := port, timeout := timeout, sock := none }

/-- `TcpCamera.connect`: `attempt = some h` models a successful TCP
connect yielding handle `h`; `attempt = none` models any exception
during socket creation or connect, in which case `_sock` is reset to
`None` and `ConnectionError` is raised (the returned `Bool` is `false`). -/
def connect_result (s : TcpCameraState) (attempt : Option Nat) :
    TcpCameraState × Bool :=
  match attempt with
  | some h => ({ s with sock := some h }, true)
  | none => ({ s with sock := none }, false)

/-- `TcpCamera.close_connection`: if a socket is present, close it —
swallowing any exception the close raises (`releaseFails` has no effect
on the outcome) — and set `_sock = None`; otherwise do nothing. -/
def close_connection (s : TcpCameraState) (releaseFails : Bool) :
    TcpCameraState :=
  if s.sock.isSome then
    { s with sock := none }
  else s

/-- `TcpCamera.__exit__`: always calls `close_connection` and returns
`False`, so an exception raised inside the scope propagates (`excRaised`
does not influence the cleanup). -/
def tcpCamera_exit (s : TcpCameraState) (excRaised : Bool)
    (releaseFails : Bool) : TcpCameraState × Bool :=
  (close_connection s releaseFails, false)

/-! ## Facade operations : command builders

Each operation validates its parameters, builds the command payload and
hands it to `_send_command`, which frames it.  `.ok frame` is the exact
byte frame passed to `socket.send`; `.error msg` models `ValueError`
raised before `_send_command` is invoked, hence before any flush or
send and without touching `_sock`. -/

/-- Direction byte of continuous pan/tilt (tcp_camera.py lines 170-173). -/
def direction (speed : Int) : Nat :=
  if speed < 0 then 0x01 else if speed > 0 then 0x02 else 0x03

/-- `TcpCamera.pantilt`: validate speeds, then build either the
absolute/relative positioning frame (both positions given) or the
continuous-movement frame. -/
def pantilt (pan_speed tilt_speed : Int)
    (pan_position tilt_position : Option Int) (relative : Bool) :
    Except String (List Nat) :=
  if 24 < pan_speed.natAbs ∨ 24 < tilt_speed.natAbs then
    .error "Speeds must be between -24 and 24"
  else
    match pan_position, tilt_position with
    | some pp, some tp =>
      match encode_position pp, encode_position tp with
      | some ep, some et =>
        .ok (build_frame false
          ([0x06, if relative then 0x03 else 0x02,
            pan_speed.natAbs, tilt_speed.natAbs] ++ ep ++ et))
      | _, _ => .error "OverflowError"
    | _, _ =>
      .ok (build_frame false
        [0x06, 0x01, pan_speed.natAbs, tilt_speed.natAbs,
         direction pan_speed, direction tilt_speed])

/-- `TcpCamera.zoom`: validate speed, combine the direction nibble
`{0=stop, 2=in, 3=out}` with the magnitude nibble into one byte. -/
def zoom (speed : Int) : Except String (List Nat) :=
  if 7 < speed.natAbs then .error "Zoom speed must be between -7 and 7"
  else
    .ok (build_frame false
      [0x04, 0x07,
       (if speed = 0 then 0x0 else if speed > 0 then 0x2 else 0x3) * 16 +
         speed.natAbs])

/-- `TcpCamera.manual_focus`: validate speed, direction nibble
`{0=stop, 3=near, 2=far}`. -/
def manual_focus (speed : Int) : Except String (List Nat) :=
  if 7 < speed.natAbs then .error "Focus speed must be between -7 and 7"
  else
    .ok (build_frame false
      [0x04, 0x08,
       (if speed = 0 then 0x0 else if speed > 0 then 0x3 else 0x2) * 16 +
         speed.natAbs])

/-- `TcpCamera.save_preset`: preset number must be in `[0, 255]`. -/
def save_preset (preset_num : Int) : Except String (List Nat) :=
  if ¬(0 ≤ preset_num ∧ preset_num ≤ 255) then
    .error "Preset number must be 0-255"
  else .ok (build_frame false [0x04, 0x3F, 0x01, preset_num.toNat])

/-- `TcpCamera.recall_preset`: preset number must be in `[0, 255]`. -/
def recall_preset (preset_num : Int) : Except String (List Nat) :=
  if ¬(0 ≤ preset_num ∧ preset_num ≤ 255) then
    .error "Preset number must be 0-255"
  else .ok (build_frame false [0x04, 0x3F, 0x02, preset_num.toNat])

/-- The `modes` dictionary of `TcpCamera.set_focus_mode`, as a lookup
from the (already lowercased) mode string to the opcode bytes that
follow `04` in the payload. -/
def focus_mode_opcode (m : List Char) : Option (List Nat) :=
  if m = "auto".toList then some [0x38, 0x02]
  else if m = "manual".toList then some [0x38, 0x03]
  else if m = "auto/manual".toList then some [0x38, 0x10]
  else if m = "one push trigger".toList then some [0x18, 0x01]
  else if m = "infinity".toList then some [0x18, 0x02]
  else none

/-- `TcpCamera.set_focus_mode`: lowercase the mode (Python `str.lower`,
modelled per character by `Char.toLower`, which agrees with Python on
ASCII input), look it up, and raise `ValueError` when absent.  A mode
string is a `List Char`, mirroring a Python `str`. -/
def set_focus_mode (mode : List Char) : Except String (List Nat) :=
  match focus_mode_opcode (mode.map Char.toLower) with
  | some op => .ok (build_frame false ([0x04] ++ op))
  | none => .error ("Invalid mode: " ++ String.mk mode)

/-! ## zoom_to : absolute zoom -/

/-- Python `round`: round half to even (banker's rounding). -/
def pyRound (q : ℚ) : Int :=
  if q - ⌊q⌋ < 1 / 2 then ⌊q⌋
  else if 1 / 2 < q - ⌊q⌋ then ⌊q⌋ + 1
  else if ⌊q⌋ % 2 = 0 then ⌊q⌋ else ⌊q⌋ + 1

/-- Hexadecimal digit expansion, most significant first, with a fuel
argument for structural recursion; `fuel ≥ n` always suffices. -/
def natHexDigitsAux : Nat → Nat → List Nat
  | 0, n => [n % 16]
  | fuel + 1, n =>
    if n < 16 then [n] else natHexDigitsAux fuel (n / 16) ++ [n % 16]

/-- Hexadecimal digits of a natural number, most significant first
(the digits of Python `f'{n:x}'`). -/
def natHexDigits (n : Nat) : List Nat := natHexDigitsAux n n

/-- Zero-pad a digit list on the left to width 4
(the padding of Python `f'{n:04x}'`). -/
def pad4 (ds : List Nat) : List Nat :=
  List.replicate (4 - ds.length) 0 ++ ds

/-- `TcpCamera.zoom_to`: `pos_int = round(position * 16384)` is formatted
as `f'{pos_int:04x}'` and every hex digit becomes one payload byte with
high nibble `0` (`'0' + c`).  A negative `pos_int` is formatted with a
leading minus sign, which `bytes.fromhex` rejects (`ValueError`),
modelled as `.error`.  The argument is the exact rational value of the
`position` float (multiplication by `16384 = 2^14` is exact for floats). -/
def zoom_to (position : ℚ) : Except String (List Nat) :=
  let pos_int := pyRound (position * 16384)
  if pos_int < 0 then .error "ValueError: non-hexadecimal number"
  else .ok (build_frame false ([0x04, 0x47] ++ pad4 (natHexDigits pos_int.toNat)))

/-! ## Facade operations : queries -/

/-- `TcpCamera.get_pantilt_position`: inquiry `06 12`; a missing reply or
a payload shorter than 8 bytes raises
`ViscaException(b"Invalid pan/tilt response")`; otherwise the first and
second group of 4 nibble bytes decode to the signed pan and tilt. -/
def get_pantilt_position (response : Option (List Nat)) :
    Except (List Nat) (Int × Int) :=
  match send_command_result true response with
  | .error b => .error b
  | .ok none => .error (asciiBytes "Invalid pan/tilt response")
  | .ok (some data) =>
    if data.length < 8 then .error (asciiBytes "Invalid pan/tilt response")
    else .ok (decode_position (data.take 4), decode_position ((data.drop 4).take 4))

/-- `TcpCamera.get_zoom_position`: inquiry `04 47`; a missing reply or a
payload shorter than 4 bytes raises
`ViscaException(b"Invalid zoom response")`; otherwise the 4 nibble bytes
decode to the unsigned zoom value. -/
def get_zoom_position (response : Option (List Nat)) :
    Except (List Nat) Nat :=
  match send_command_result true response with
  | .error b => .error b
  | .ok none => .error (asciiBytes "Invalid zoom response")
  | .ok (some data) =>
    if data.length < 4 then .error (asciiBytes "Invalid zoom response")
    else .ok (decode_zoom data)

/-- `TcpCamera.get_focus_mode`: inquiry `04 38`; interprets the last
payload byte, returning `"unknown"` when the reply is missing or the
byte matches neither `0x02` nor `0x03`. -/
def get_focus_mode (response : Option (List Nat)) :
    Except (List Nat) String :=
  match send_command_result true response with
  | .error b => .error b
  | .ok none => .ok "unknown"
  | .ok (some data) =>
    if data ≠ [] then
      if data.getLastD 0 = 0x02 then .ok "auto"
      else if data.getLastD 0 = 0x03 then .ok "manual"
      else .ok "unknown"
    else .ok "unknown"

/-- `TcpCamera.get_power_status`: inquiry `04 00`; `True` exactly when the
last payload byte is `0x02`, `False` when the reply is missing. -/
def get_power_status (response : Option (List Nat)) :
    Except (List Nat) Bool :=
  match send_command_result true response with
  | .error b => .error b
  | .ok none => .ok false
  | .ok (some data) =>
    if data ≠ [] then .ok (data.getLastD 0 == 0x02)
    else .ok false

/-! ## C1 : nibble codec round trip -/

/-- C1: for every signed 16-bit `v`, decoding the 4-byte nibble-packed
encoding of `v` returns `v`: `decode_position` inverts `encode_position`
on `[-32768, 32767]`. -/
theorem position_encode_decode_roundtrip (v : Int)
    (h1 : -32768 ≤ v) (h2 : v ≤ 32767) :
    (encode_position v).map decode_position = some v := by
  have hcond : ¬(v < -32768 ∨ 32767 < v) := by omega
  have hu : (v % 65536).toNat < 65536 := by omega
  simp only [encode_position, if_neg hcond, Option.map_some', Option.some.injEq]
  rw [decode_position_eq, reassemble _ hu]
  split <;> omega

/-- C1 witness: the round trip evaluated at `v = -432`. -/
theorem position_encode_decode_roundtrip_witness :
    -32768 ≤ (-432 : Int) ∧ (-432 : Int) ≤ 32767 ∧
      (encode_position (-432)).map decode_position = some (-432) :=
  ⟨by decide, by decide,
    position_encode_decode_roundtrip (-432) (by decide) (by decide)⟩

/-! ## Shared helper lemmas -/

/-- A reply of length ≥ 3 whose second byte has high nibble `0x6` makes
`_send_command` raise `ViscaException(response)`. -/
theorem send_command_error (q : Bool) (r : List Nat) (h3 : 3 ≤ r.length)
    (h6 : r.getD 1 0 &&& 0xF0 = 0x60) :
    send_command_result q (some r) = .error r := by
  simp only [send_command_result]
  rw [if_neg (by rintro rfl; simp at h3), if_pos ⟨h3, h6⟩]

/-- A missing reply or a payload shorter than 8 bytes makes
`get_pantilt_position` raise with the literal message bytes. -/
theorem get_pantilt_short (resp d : Option (List Nat))
    (h : send_command_result true resp = .ok d)
    (hlen : ∀ l, d = some l → l.length < 8) :
    get_pantilt_position resp = .error (asciiBytes "Invalid pan/tilt response") := by
  unfold get_pantilt_position
  rw [h]
  cases d with
  | none => rfl
  | some l => simp [hlen l rfl]

/-- A missing reply or a payload shorter than 4 bytes makes
`get_zoom_position` raise with the literal message bytes. -/
theorem get_zoom_short (resp d : Option (List Nat))
    (h : send_command_result true resp = .ok d)
    (hlen : ∀ l, d = some l → l.length < 4) :
    get_zoom_position resp = .error (asciiBytes "Invalid zoom response") := by
  unfold get_zoom_position
  rw [h]
  cases d with
  | none => rfl
  | some l => simp [hlen l rfl]

/-- After `close_connection`, `_sock` is `None` on every path. -/
theorem close_sock_none (s : TcpCameraState) (f : Bool) :
    (close_connection s f).sock = none := by
  cases hs : s.sock <;> simp [close_connection, hs]

/-! ## C2 : error reply classification -/

/-- C2: a reply of length ≥ 3 whose second byte has high nibble `0x6` is
classified as an error carrying the reply itself (so the exception's
status code is `reply[2]`), for action commands and inquiries alike; no
other reply is classified as an error. -/
theorem error_reply_classification (q : Bool) (r : List Nat) :
    (send_command_result q (some r) = .error r ↔
      3 ≤ r.length ∧ r.getD 1 0 &&& 0xF0 = 0x60) ∧
    (∀ b, send_command_result q (some r) = .error b → b = r) ∧
    (3 ≤ r.length → visca_status_code r = (r.getD 2 0 : Int)) := by
  simp only [send_command_result]
  refine ⟨?_, ?_, fun h3 => by simp [visca_status_code, h3]⟩
  · by_cases hE : r = []
    · subst hE
      rw [if_pos rfl]
      exact iff_of_false (fun h => Except.noConfusion h) (by simp)
    · rw [if_neg hE]
      by_cases hErr : 3 ≤ r.length ∧ r.getD 1 0 &&& 0xF0 = 0x60
      · rw [if_pos hErr]
        exact iff_of_true rfl hErr
      · rw [if_neg hErr]
        split
        · exact iff_of_false (fun h => Except.noConfusion h) hErr
        · exact iff_of_false (fun h => Except.noConfusion h) hErr
  · by_cases hE : r = []
    · subst hE
      rw [if_pos rfl]
      exact fun b hb => Except.noConfusion hb
    · rw [if_neg hE]
      by_cases hErr : 3 ≤ r.length ∧ r.getD 1 0 &&& 0xF0 = 0x60
      · rw [if_pos hErr]
        intro b hb
        injection hb with h
        exact h.symm
      · rw [if_neg hErr]
        split
        · exact fun b hb => Except.noConfusion hb
        · exact fun b hb => Except.noConfusion hb

/-- C2 witness: the error classification evaluated on the reply
`90 60 02 FF` for both command types. -/
theorem error_reply_classification_witness :
    send_command_result true (some [0x90, 0x60, 0x02, 0xFF]) =
      .error [0x90, 0x60, 0x02, 0xFF] ∧
    send_command_result false (some [0x90, 0x60, 0x02, 0xFF]) =
      .error [0x90, 0x60, 0x02, 0xFF] ∧
    visca_status_code [0x90, 0x60, 0x02, 0xFF] = 0x02 :=
  ⟨(error_reply_classification true _).1.mpr ⟨by decide, by decide⟩,
   (error_reply_classification false _).1.mpr ⟨by decide, by decide⟩,
   (error_reply_classification true [0x90, 0x60, 0x02, 0xFF]).2.2 (by decide)⟩

/-! ## C3 : parameter validation before I/O -/

/-- C3: every out-of-range parameter — pan/tilt speeds outside
`[-24, 24]`, zoom or manual-focus speeds outside `[-7, 7]`, preset
numbers outside `[0, 255]`, unrecognized focus-mode strings — produces
`ValueError` (`.error`), so no command frame is built and nothing is
flushed or sent: the validation checks precede the `_send_command` call
in every operation. -/
theorem out_of_range_validation :
    (∀ (ps ts : Int) (pp tp : Option Int) (rel : Bool),
      24 < ps.natAbs ∨ 24 < ts.natAbs →
      pantilt ps ts pp tp rel = .error "Speeds must be between -24 and 24") ∧
    (∀ s : Int, 7 < s.natAbs →
      zoom s = .error "Zoom speed must be between -7 and 7") ∧
    (∀ s : Int, 7 < s.natAbs →
      manual_focus s = .error "Focus speed must be between -7 and 7") ∧
    (∀ n : Int, ¬(0 ≤ n ∧ n ≤ 255) →
      save_preset n = .error "Preset number must be 0-255") ∧
    (∀ n : Int, ¬(0 ≤ n ∧ n ≤ 255) →
      recall_preset n = .error "Preset number must be 0-255") ∧
    (∀ m : List Char, focus_mode_opcode (m.map Char.toLower) = none →
      set_focus_mode m = .error ("Invalid mode: " ++ String.mk m)) := by
  refine ⟨fun ps ts pp tp rel h => ?_, fun s h => ?_, fun s h => ?_,
    fun n h => ?_, fun n h => ?_, fun m h => ?_⟩
  · unfold pantilt; rw [if_pos h]
  · unfold zoom; rw [if_pos h]
  · unfold manual_focus; rw [if_pos h]
  · unfold save_preset; rw [if_pos h]
  · unfold recall_preset; rw [if_pos h]
  · unfold set_focus_mode; rw [h]

/-- C3 witness: `pantilt(pan_speed=25)`, `zoom(8)`, `save_preset(256)`
and `set_focus_mode('invalid')` each raise before any I/O. -/
theorem out_of_range_validation_witness :
    pantilt 25 0 none none false = .error "Speeds must be between -24 and 24" ∧
    zoom 8 = .error "Zoom speed must be between -7 and 7" ∧
    save_preset 256 = .error "Preset number must be 0-255" ∧
    set_focus_mode "invalid".toList =
      .error ("Invalid mode: " ++ String.mk "invalid".toList) :=
  ⟨out_of_range_validation.1 25 0 none none false (by decide),
   out_of_range_validation.2.1 8 (by decide),
   out_of_range_validation.2.2.2.1 256 (by decide),
   out_of_range_validation.2.2.2.2.2 "invalid".toList (by decide)⟩

/-! ## C4 : continuous pan/tilt frame -/

/-- C4: for speeds in `[-24, 24]` with both positions omitted, `pantilt`
sends exactly the 9 bytes
`81 01 06 01 |pan| |tilt| dir(pan) dir(tilt) FF`, where the direction
byte is `01` for negative, `02` for positive and `03` for zero speed. -/
theorem pantilt_continuous_frame (ps ts : Int)
    (h1 : -24 ≤ ps) (h2 : ps ≤ 24) (h3 : -24 ≤ ts) (h4 : ts ≤ 24) :
    pantilt ps ts none none false =
      .ok [0x81, 0x01, 0x06, 0x01, ps.natAbs, ts.natAbs,
           if ps < 0 then 0x01 else if 0 < ps then 0x02 else 0x03,
           if ts < 0 then 0x01 else if 0 < ts then 0x02 else 0x03, 0xFF] := by
  have hc : ¬(24 < ps.natAbs ∨ 24 < ts.natAbs) := by omega
  unfold pantilt
  rw [if_neg hc]
  rfl

/-- C4 witness: `pantilt(pan_speed=5, tilt_speed=0)` sends
`81 01 06 01 05 00 02 03 FF`. -/
theorem pantilt_continuous_frame_witness :
    pantilt 5 0 none none false =
      .ok [0x81, 0x01, 0x06, 0x01, 0x05, 0x00, 0x02, 0x03, 0xFF] := by
  simpa using pantilt_continuous_frame 5 0 (by decide) (by decide)
    (by decide) (by decide)

/-! ## C5 : inquiry payload stripping -/

/-- C5: a non-error reply of length > 3 to an inquiry is delivered with
the two header bytes and the terminator stripped (`reply[2:-1]`); the
zoom-inquiry reply `90 50 01 02 03 04 FF` yields payload `01 02 03 04`,
which decodes to `0x1234`. -/
theorem inquiry_payload_stripping :
    (∀ r : List Nat, ¬(3 ≤ r.length ∧ r.getD 1 0 &&& 0xF0 = 0x60) →
      3 < r.length →
      send_command_result true (some r) = .ok (some ((r.drop 2).dropLast))) ∧
    get_zoom_position (some [0x90, 0x50, 0x01, 0x02, 0x03, 0x04, 0xFF]) =
      .ok 0x1234 := by
  refine ⟨fun r hc hlen => ?_, rfl⟩
  simp only [send_command_result]
  rw [if_neg (by rintro rfl; simp at hlen), if_neg hc, if_pos ⟨⟨⟩, hlen⟩]

/-- C5 witness: the stripping evaluated on the zoom-inquiry reply. -/
theorem inquiry_payload_stripping_witness :
    send_command_result true (some [0x90, 0x50, 0x01, 0x02, 0x03, 0x04, 0xFF]) =
      .ok (some [0x01, 0x02, 0x03, 0x04]) := by
  simpa using inquiry_payload_stripping.1
    [0x90, 0x50, 0x01, 0x02, 0x03, 0x04, 0xFF] (by decide) (by decide)

/-! ## C6 : socket handle lifecycle -/

/-- C6: `_sock` is `None` before `connect`, after a failed `connect`, and
after every `close_connection` — including a repeated close and the
implicit close performed by `__exit__` after an exception inside the
scope (which also returns `False`, propagating the exception) — and
`close_connection` is a total function whose outcome does not depend on
whether the underlying release fails. -/
theorem socket_handle_invalidation (ip : String) (port : Nat) (t : ℚ)
    (s : TcpCameraState) (f f₁ f₂ exc : Bool) :
    (tcpCamera_init ip port t).sock = none ∧
    ((connect_result s none).1).sock = none ∧
    (close_connection s f).sock = none ∧
    (close_connection (close_connection s f₁) f₂).sock = none ∧
    ((tcpCamera_exit s exc f).1).sock = none ∧
    (tcpCamera_exit s exc f).2 = false ∧
    close_connection s f₁ = close_connection s f₂ :=
  ⟨rfl, rfl, close_sock_none s f, close_sock_none _ f₂,
   close_sock_none s f, rfl, rfl⟩

/-! ## C7 : minimum payload lengths -/

/-- C7 counterexample: a reply absent within the timeout (`None`, payload
shorter than the 1-byte minimum) makes `get_focus_mode` return
`"unknown"` and `get_power_status` return `False` — no error of any kind
is signalled to the caller. -/
theorem short_reply_no_error_for_focus_power :
    get_focus_mode none = .ok "unknown" ∧ get_power_status none = .ok false :=
  ⟨rfl, rfl⟩

/-- C7 (amended): `get_pantilt_position` and `get_zoom_position` require
payloads of at least 8 and 4 bytes and raise (`ViscaException` with the
literal message bytes) on anything shorter, including an absent reply;
`get_focus_mode` and `get_power_status`, however, do not signal an
error on an absent reply — they return the `"unknown"` / `False`
fallback. -/
theorem query_min_payload_behavior :
    (∀ resp d, send_command_result true resp = .ok d →
      (∀ l, d = some l → l.length < 8) →
      get_pantilt_position resp =
        .error (asciiBytes "Invalid pan/tilt response")) ∧
    (∀ resp d, send_command_result true resp = .ok d →
      (∀ l, d = some l → l.length < 4) →
      get_zoom_position resp = .error (asciiBytes "Invalid zoom response")) ∧
    get_focus_mode none = .ok "unknown" ∧
    get_power_status none = .ok false :=
  ⟨fun resp d h hl => get_pantilt_short resp d h hl,
   fun resp d h hl => get_zoom_short resp d h hl, rfl, rfl⟩

/-- C7 witness: a 1-byte inquiry payload makes both position queries
raise, evaluated on the reply `90 50 0A FF`. -/
theorem query_min_payload_behavior_witness :
    get_pantilt_position (some [0x90, 0x50, 0x0A, 0xFF]) =
      .error (asciiBytes "Invalid pan/tilt response") ∧
    get_zoom_position (some [0x90, 0x50, 0x0A, 0xFF]) =
      .error (asciiBytes "Invalid zoom response") :=
  ⟨query_min_payload_behavior.1 (some [0x90, 0x50, 0x0A, 0xFF]) (some [0x0A])
      (by rfl) (by intro l hl; cases hl; decide),
   query_min_payload_behavior.2.1 (some [0x90, 0x50, 0x0A, 0xFF]) (some [0x0A])
      (by rfl) (by intro l hl; cases hl; decide)⟩

/-! ## C8 : absolute zoom frame -/

/-- Unfolding step of the hex-digit expansion for positive fuel. -/
theorem natHexDigitsAux_succ (fuel n : Nat) (h : 1 ≤ fuel) :
    natHexDigitsAux fuel n =
      if n < 16 then [n]
      else natHexDigitsAux (fuel - 1) (n / 16) ++ [n % 16] := by
  obtain ⟨f, rfl⟩ : ∃ f, fuel = f + 1 := ⟨fuel - 1, by omega⟩
  simp [natHexDigitsAux]

/-- A value below 16 is its own single hex digit, whatever the fuel. -/
theorem natHexDigitsAux_small (fuel n : Nat) (hn : n < 16) :
    natHexDigitsAux fuel n = [n] := by
  cases fuel with
  | zero => simp [natHexDigitsAux, Nat.mod_eq_of_lt hn]
  | succ f => simp [natHexDigitsAux, hn]

/-- For a 16-bit value, `f'{v:04x}'` produces exactly the four nibbles in
positional order. -/
theorem natHexDigits_four (v : Nat) (h : v ≤ 65535) :
    pad4 (natHexDigits v) = [v / 4096, v / 256 % 16, v / 16 % 16, v % 16] := by
  unfold natHexDigits
  rcases Nat.lt_or_ge v 16 with h1 | h1
  · rw [natHexDigitsAux_small v v h1]
    simp [pad4, List.replicate]
    omega
  · rcases Nat.lt_or_ge v 256 with h2 | h2
    · rw [natHexDigitsAux_succ v v (by omega), if_neg (by omega),
          natHexDigitsAux_small (v - 1) (v / 16) (by omega)]
      simp [pad4, List.replicate]
      omega
    · rcases Nat.lt_or_ge v 4096 with h3 | h3
      · rw [natHexDigitsAux_succ v v (by omega), if_neg (by omega),
            natHexDigitsAux_succ (v - 1) (v / 16) (by omega),
            if_neg (by omega),
            natHexDigitsAux_small (v - 1 - 1) (v / 16 / 16) (by omega)]
        simp [pad4, List.replicate]
        omega
      · rw [natHexDigitsAux_succ v v (by omega), if_neg (by omega),
            natHexDigitsAux_succ (v - 1) (v / 16) (by omega),
            if_neg (by omega),
            natHexDigitsAux_succ (v - 1 - 1) (v / 16 / 16) (by omega),
            if_neg (by omega),
            natHexDigitsAux_small (v - 1 - 1 - 1) (v / 16 / 16 / 16)
              (by omega)]
        simp [pad4, List.replicate]
        omega

/-- C8 counterexample: at `position = 5.0` the scaled value
`round(5 * 16384) = 81920 = 0x14000` exceeds the 16-bit wire limit and
`zoom_to` emits five nibble bytes — a 10-byte frame instead of the
claimed 9-byte `81 01 04 47 <4 nibbles> FF` shape. -/
theorem zoom_to_exceeds_wire_limit :
    pyRound ((5 : ℚ) * 16384) = 81920 ∧
    zoom_to 5 =
      .ok [0x81, 0x01, 0x04, 0x47, 0x01, 0x04, 0x00, 0x00, 0x00, 0xFF] := by
  have hval : pyRound ((5 : ℚ) * 16384) = 81920 := by norm_num [pyRound]
  refine ⟨hval, ?_⟩
  simp only [zoom_to]
  rw [hval]
  rfl

/-- C8 (amended): whenever `round(position * 16384)` lies within
`[0, 0xFFFF]` — in particular for the documented domain
`position ∈ [0, 1]` — `zoom_to` sends `81 01 04 47` followed by exactly
the four nibbles of that value (most significant first, high nibble of
each byte zero) and `FF`; outside that range the client does not
enforce the wire limit (see the counterexample). -/
theorem zoom_to_frame (position : ℚ)
    (h0 : 0 ≤ pyRound (position * 16384))
    (h1 : pyRound (position * 16384) ≤ 65535) :
    zoom_to position =
      .ok [0x81, 0x01, 0x04, 0x47,
           (pyRound (position * 16384)).toNat / 4096,
           (pyRound (position * 16384)).toNat / 256 % 16,
           (pyRound (position * 16384)).toNat / 16 % 16,
           (pyRound (position * 16384)).toNat % 16, 0xFF] ∧
    (pyRound (position * 16384)).toNat / 4096 < 16 := by
  refine ⟨?_, by omega⟩
  simp only [zoom_to]
  rw [if_neg (by omega), natHexDigits_four _ (by omega)]
  simp [build_frame]

/-- C8 witness: `zoom_to(1.0)` sends `81 01 04 47 04 00 00 00 FF`. -/
theorem zoom_to_frame_witness :
    0 ≤ pyRound ((1 : ℚ) * 16384) ∧ pyRound ((1 : ℚ) * 16384) ≤ 65535 ∧
    zoom_to 1 = .ok [0x81, 0x01, 0x04, 0x47, 0x04, 0x00, 0x00, 0x00, 0xFF] := by
  have hv : pyRound ((1 : ℚ) * 16384) = 16384 := by norm_num [pyRound]
  have h := (zoom_to_frame 1 (by rw [hv]; decide) (by rw [hv]; decide)).1
  rw [hv] at h
  refine ⟨by rw [hv]; decide, by rw [hv]; decide, ?_⟩
  simpa using h

/-! ## C9 : malformed responses masquerade as device error 0x76 -/

/-- C9: the literal message bytes `b"Invalid pan/tilt response"` and
`b"Invalid zoom response"` both have `0x76` (ASCII `'v'`) as their third
byte, so the `ViscaException` raised for a too-short inquiry payload
carries status code `0x76` with description "Position limit exceeded or
command blocked" — exactly the same exception class and status code as
a genuine device error reply `90 6X 76 FF`. -/
theorem malformed_masquerades_as_device_error :
    visca_status_code (asciiBytes "Invalid pan/tilt response") = 0x76 ∧
    visca_status_code (asciiBytes "Invalid zoom response") = 0x76 ∧
    visca_description 0x76 = "Position limit exceeded or command blocked" ∧
    (∀ resp d, send_command_result true resp = .ok d →
      (∀ l, d = some l → l.length < 8) →
      ∃ b, get_pantilt_position resp = .error b ∧
        visca_status_code b = 0x76) ∧
    (∀ resp d, send_command_result true resp = .ok d →
      (∀ l, d = some l → l.length < 4) →
      ∃ b, get_zoom_position resp = .error b ∧ visca_status_code b = 0x76) ∧
    (∀ r : List Nat, 3 ≤ r.length → r.getD 1 0 &&& 0xF0 = 0x60 →
      r.getD 2 0 = 0x76 →
      ∃ b, get_zoom_position (some r) = .error b ∧
        visca_status_code b = 0x76) := by
  refine ⟨by decide, by decide, by decide, ?_, ?_, ?_⟩
  · intro resp d h hl
    exact ⟨asciiBytes "Invalid pan/tilt response",
      get_pantilt_short resp d h hl, by decide⟩
  · intro resp d h hl
    exact ⟨asciiBytes "Invalid zoom response",
      get_zoom_short resp d h hl, by decide⟩
  · intro r h3 h6 h76
    refine ⟨r, ?_, ?_⟩
    · unfold get_zoom_position
      rw [send_command_error true r h3 h6]
    · unfold visca_status_code
      rw [if_pos h3, h76]
      rfl

/-- C9 witness: a 1-byte zoom payload and a genuine `90 60 76 FF` device
error raise with the same status code `0x76`. -/
theorem malformed_masquerades_witness :
    (∃ b, get_zoom_position (some [0x90, 0x50, 0x0A, 0xFF]) = .error b ∧
      visca_status_code b = 0x76) ∧
    (∃ b, get_zoom_position (some [0x90, 0x60, 0x76, 0xFF]) = .error b ∧
      visca_status_code b = 0x76) :=
  ⟨malformed_masquerades_as_device_error.2.2.2.2.1
      (some [0x90, 0x50, 0x0A, 0xFF]) (some [0x0A]) (by rfl)
      (by intro l hl; cases hl; decide),
   malformed_masquerades_as_device_error.2.2.2.2.2
      [0x90, 0x60, 0x76, 0xFF] (by decide) (by decide) (by decide)⟩

/-! ## C10 : case-insensitive focus mode matching -/

/-- C10: `set_focus_mode` lowercases its argument before the dictionary
lookup: every string whose lowercased form is one of the five known
modes builds and sends the command of that mode, and only strings whose
lowercased form matches none of the five raise `ValueError`. -/
theorem focus_mode_case_insensitive (m : List Char) :
    (m.map Char.toLower = "auto".toList →
      set_focus_mode m = .ok [0x81, 0x01, 0x04, 0x38, 0x02, 0xFF]) ∧
    (m.map Char.toLower = "manual".toList →
      set_focus_mode m = .ok [0x81, 0x01, 0x04, 0x38, 0x03, 0xFF]) ∧
    (m.map Char.toLower = "auto/manual".toList →
      set_focus_mode m = .ok [0x81, 0x01, 0x04, 0x38, 0x10, 0xFF]) ∧
    (m.map Char.toLower = "one push trigger".toList →
      set_focus_mode m = .ok [0x81, 0x01, 0x04, 0x18, 0x01, 0xFF]) ∧
    (m.map Char.toLower = "infinity".toList →
      set_focus_mode m = .ok [0x81, 0x01, 0x04, 0x18, 0x02, 0xFF]) ∧
    (m.map Char.toLower ≠ "auto".toList →
      m.map Char.toLower ≠ "manual".toList →
      m.map Char.toLower ≠ "auto/manual".toList →
      m.map Char.toLower ≠ "one push trigger".toList →
      m.map Char.toLower ≠ "infinity".toList →
      set_focus_mode m = .error ("Invalid mode: " ++ String.mk m)) := by
  refine ⟨fun h => ?_, fun h => ?_, fun h => ?_, fun h => ?_, fun h => ?_,
    fun n1 n2 n3 n4 n5 => ?_⟩ <;>
    unfold set_focus_mode
  · rw [h]; rfl
  · rw [h]; rfl
  · rw [h]; rfl
  · rw [h]; rfl
  · rw [h]; rfl
  · unfold focus_mode_opcode
    rw [if_neg n1, if_neg n2, if_neg n3, if_neg n4, if_neg n5]

/-- C10 witness: `'AUTO'` and `'Auto/Manual'` match case-insensitively;
`'bogus'` raises. -/
theorem focus_mode_case_insensitive_witness :
    set_focus_mode "AUTO".toList = .ok [0x81, 0x01, 0x04, 0x38, 0x02, 0xFF] ∧
    set_focus_mode "Auto/Manual".toList =
      .ok [0x81, 0x01, 0x04, 0x38, 0x10, 0xFF] ∧
    set_focus_mode "bogus".toList =
      .error ("Invalid mode: " ++ String.mk "bogus".toList) :=
  ⟨(focus_mode_case_insensitive "AUTO".toList).1 (by decide),
   (focus_mode_case_insensitive "Auto/Manual".toList).2.2.1 (by decide),
   (focus_mode_case_insensitive "bogus".toList).2.2.2.2.2 (by decide)
      (by decide) (by decide) (by decide) (by decide)⟩

end ViscaTcp
